import Mathlib

/-!
Shallow embedding of the cinema booking serialization layer
(`src/cinema/serializers.py`): seat validation, nested order creation,
and the derived per-session reads.

The committed database state is explicit: a list of order primary keys and a
list of persisted ticket rows.  Stateful serializer calls become functions of
that state; a `ValidationError` raised by the source becomes an `Except.error`
or an `Option.some` result.
-/

/-- A cinema hall: `rows` and `seats_in_row`, as referenced through
`attrs["movie_session"].cinema_hall` in the serializers. -/
structure CinemaHall where
  rows : Int
  seats_in_row : Int
deriving DecidableEq, Repr

/-- Modelled from the spec: `CinemaHall.capacity` is defined in
`cinema/models.py`, which is not among the sources; spec section 3 fixes it as
`capacity = rows × seats_per_row`, always recomputed, never stored. -/
def CinemaHall.capacity (h : CinemaHall) : Int :=
  h.rows * h.seats_in_row

/-- A movie session, identified by its primary key and carrying its hall.
The movie and the show time play no role in the verified logic. -/
structure MovieSession where
  id : Nat
  cinema_hall : CinemaHall
deriving DecidableEq, Repr

/-- A persisted `Ticket` row: coordinates, the session it references (by pk)
and the order that owns it (by pk). -/
structure Ticket where
  row : Int
  seat : Int
  movie_session : Nat
  order : Nat
deriving DecidableEq, Repr

/-- The validated attributes handed to a ticket serializer's `validate`:
`attrs["row"]`, `attrs["seat"]` and the resolved `MovieSession` object. -/
structure TicketAttrs where
  row : Int
  seat : Int
  movie_session : MovieSession
deriving DecidableEq, Repr

/-- A `rest_framework.serializers.ValidationError`: either a dict keyed by one
field name, or a plain non-field message. -/
inductive ValidationError where
  | fieldError (field : String) (message : String)
  | nonFieldError (message : String)
deriving DecidableEq, Repr

deriving instance DecidableEq for Except

namespace TicketListSerializer

/-- `TicketListSerializer.validate` (serializers.py lines 92-113): range-check
`row` against `cinema_hall.rows`, then `seat` against
`cinema_hall.seats_in_row`, then reject when a persisted ticket with the same
`(movie_session, row, seat)` exists.  `tickets` stands for the committed
`Ticket.objects` table. -/
def validate (tickets : List Ticket) (attrs : TicketAttrs) :
    Except ValidationError TicketAttrs :=
  if ¬ (1 ≤ attrs.row ∧ attrs.row ≤ attrs.movie_session.cinema_hall.rows) then
    .error (.fieldError "row" "Row number out of range.")
  else if ¬ (1 ≤ attrs.seat ∧
      attrs.seat ≤ attrs.movie_session.cinema_hall.seats_in_row) then
    .error (.fieldError "seat" "Seat number out of range.")
  else if tickets.any (fun t =>
      t.movie_session == attrs.movie_session.id && t.row == attrs.row &&
        t.seat == attrs.seat) then
    .error (.nonFieldError "This seat is already taken.")
  else
    .ok attrs

end TicketListSerializer

namespace TicketCreateSerializer

/-- `TicketCreateSerializer.validate` (serializers.py lines 125-144),
transcribed from its own body: range-check `row`, then `seat`, then reject
when a persisted ticket with the same `(movie_session, row, seat)` exists. -/
def validate (tickets : List Ticket) (attrs : TicketAttrs) :
    Except ValidationError TicketAttrs :=
  if ¬ (1 ≤ attrs.row ∧ attrs.row ≤ attrs.movie_session.cinema_hall.rows) then
    .error (.fieldError "row" "Row number out of range.")
  else if ¬ (1 ≤ attrs.seat ∧
      attrs.seat ≤ attrs.movie_session.cinema_hall.seats_in_row) then
    .error (.fieldError "seat" "Seat number out of range.")
  else if tickets.any (fun t =>
      t.movie_session == attrs.movie_session.id && t.row == attrs.row &&
        t.seat == attrs.seat) then
    .error (.nonFieldError "This seat is already taken.")
  else
    .ok attrs

end TicketCreateSerializer

/-- Validation of the nested `tickets = TicketCreateSerializer(many=True)`
field of `OrderCreateSerializer`: the framework list serializer validates
each incoming ticket dict independently against the same committed ticket
table (it keeps no per-batch state), and its default `allow_empty=True`
accepts the empty list.  Returns the first child error, `none` when every
child validates. -/
def validateTickets (tickets : List Ticket) :
    List TicketAttrs → Option ValidationError
  | [] => none
  | a :: rest =>
    match TicketCreateSerializer.validate tickets a with
    | .error e => some e
    | .ok _ => validateTickets tickets rest

/-- The persisted state read and written by order creation: committed order
pks and committed ticket rows. -/
structure DB where
  orders : List Nat
  tickets : List Ticket
deriving DecidableEq, Repr

/-- The row written by `Ticket.objects.create(order=order, **ticket_data)`. -/
def mkTicket (order : Nat) (a : TicketAttrs) : Ticket :=
  { row := a.row, seat := a.seat, movie_session := a.movie_session.id,
    order := order }

/-- Modelled from the spec: the storage layer enforces a uniqueness constraint
on `(movie_session, row, seat)` and is the final arbiter for seat conflicts
(spec section 5); `cinema/models.py` is not among the sources.
`Ticket.objects.create` commits the row immediately, or fails when the
constraint is violated. -/
def insertTicket (tickets : List Ticket) (t : Ticket) : Option (List Ticket) :=
  if tickets.any (fun u => u.movie_session == t.movie_session &&
      u.row == t.row && u.seat == t.seat) then
    none
  else
    some (tickets ++ [t])

/-- The ticket-writing loop of `OrderCreateSerializer.create` (serializers.py
lines 178-179).  The source wraps the loop in no transaction, so every
successful `Ticket.objects.create` stays committed; when a write fails, the
rows committed so far remain and the flag is `false`. -/
def createTickets (order : Nat) (tickets : List Ticket) :
    List TicketAttrs → List Ticket × Bool
  | [] => (tickets, true)
  | a :: rest =>
    match insertTicket tickets (mkTicket order a) with
    | none => (tickets, false)
    | some tickets1 => createTickets order tickets1 rest

namespace OrderCreateSerializer

/-- `OrderCreateSerializer.create` (serializers.py lines 175-180): create the
`Order` row — its pk modelled as the next auto-increment value — then create
one `Ticket` per request.  Returns the state after the writes and `some pk` on
success, `none` when a ticket write failed; with no enclosing transaction the
partially written state stands either way. -/
def create (db : DB) (reqs : List TicketAttrs) : DB × Option Nat :=
  let order := db.orders.length + 1
  let step := createTickets order db.tickets reqs
  ({ orders := db.orders ++ [order], tickets := step.1 },
    if step.2 then some order else none)

end OrderCreateSerializer

/-- Outcome of one order-creation request. -/
inductive CreateResult where
  | success (order : Nat)
  | validationFailure (e : ValidationError)
  | writeFailure
deriving DecidableEq, Repr

/-- One order-creation request end to end, as the framework drives
`OrderCreateSerializer`: `is_valid()` first (which performs no writes), then
`create` on the validated batch. -/
def createOrderRequest (db : DB) (reqs : List TicketAttrs) :
    DB × CreateResult :=
  match validateTickets db.tickets reqs with
  | some e => (db, .validationFailure e)
  | none =>
    match OrderCreateSerializer.create db reqs with
    | (db1, some order) => (db1, .success order)
    | (db1, none) => (db1, .writeFailure)

/-- The reverse relation `movie_session.tickets`: the committed tickets that
reference this session. -/
def sessionTickets (db : DB) (obj : MovieSession) : List Ticket :=
  db.tickets.filter (fun t => t.movie_session == obj.id)

namespace MovieSessionListSerializer

/-- `get_tickets_available` (serializers.py lines 79-82): the hall capacity
minus the committed ticket count of the session, recomputed from the
persisted state at call time. -/
def get_tickets_available (db : DB) (obj : MovieSession) : Int :=
  let total_capacity := obj.cinema_hall.capacity
  let taken_tickets_count := (sessionTickets db obj).length
  total_capacity - taken_tickets_count

end MovieSessionListSerializer

namespace MovieSessionDetailSerializer

/-- `get_taken_places` (serializers.py lines 156-157): the `(row, seat)`
values of the committed tickets of the session. -/
def get_taken_places (db : DB) (obj : MovieSession) : List (Int × Int) :=
  (sessionTickets db obj).map (fun t => (t.row, t.seat))

end MovieSessionDetailSerializer

/-- The 10 × 15 hall of the worked scenario in the spec (capacity 150). -/
def hall10 : CinemaHall := { rows := 10, seats_in_row := 15 }

/-- A session with pk 1 in `hall10`. -/
def sess1 : MovieSession := { id := 1, cinema_hall := hall10 }

/-- The empty persisted state. -/
def db0 : DB := { orders := [], tickets := [] }

/-- A ticket request for `(r, s)` on `sess1`. -/
def req (r s : Int) : TicketAttrs :=
  { row := r, seat := s, movie_session := sess1 }

/-- A committed ticket at `(r, s)` on `sess1`, owned by the order with pk 1. -/
def committed (r s : Int) : Ticket := mkTicket 1 (req r s)

/-- The state reached from `db0` by one successful one-ticket order at
`(5, 5)`. -/
def dbOne : DB := { orders := [1], tickets := [committed 5 5] }

/-!
Helper lemmas about the embedded operations, shared by the claim theorems.
-/

/-- The `Ticket.objects.filter(...).exists()` lookup holds exactly when a
committed ticket with the given session pk and coordinates exists. -/
theorem seat_lookup_iff (tickets : List Ticket) (sid : Nat) (r s : Int) :
    (tickets.any fun t =>
        t.movie_session == sid && t.row == r && t.seat == s) = true ↔
      ∃ t ∈ tickets, t.movie_session = sid ∧ t.row = r ∧ t.seat = s := by
  simp [List.any_eq_true, and_assoc]

/-- With in-range coordinates and no committed ticket at the requested seat,
`TicketCreateSerializer.validate` returns the attributes unchanged. -/
theorem validate_ok_of_free (tickets : List Ticket) (attrs : TicketAttrs)
    (hrow : 1 ≤ attrs.row ∧ attrs.row ≤ attrs.movie_session.cinema_hall.rows)
    (hseat : 1 ≤ attrs.seat ∧
      attrs.seat ≤ attrs.movie_session.cinema_hall.seats_in_row)
    (hfree : ¬ ∃ t ∈ tickets, t.movie_session = attrs.movie_session.id ∧
      t.row = attrs.row ∧ t.seat = attrs.seat) :
    TicketCreateSerializer.validate tickets attrs = .ok attrs := by
  have hb : ¬ ((tickets.any fun t =>
      t.movie_session == attrs.movie_session.id && t.row == attrs.row &&
        t.seat == attrs.seat) = true) := fun hc =>
    hfree ((seat_lookup_iff tickets attrs.movie_session.id attrs.row
      attrs.seat).mp hc)
  simp [TicketCreateSerializer.validate, hrow.1, hrow.2, hseat.1, hseat.2, hb]

/-- With in-range coordinates and a committed ticket at the requested seat,
`TicketCreateSerializer.validate` fails with the seat-taken error. -/
theorem validate_taken_of_committed (tickets : List Ticket)
    (attrs : TicketAttrs)
    (hrow : 1 ≤ attrs.row ∧ attrs.row ≤ attrs.movie_session.cinema_hall.rows)
    (hseat : 1 ≤ attrs.seat ∧
      attrs.seat ≤ attrs.movie_session.cinema_hall.seats_in_row)
    (hex : ∃ t ∈ tickets, t.movie_session = attrs.movie_session.id ∧
      t.row = attrs.row ∧ t.seat = attrs.seat) :
    TicketCreateSerializer.validate tickets attrs =
      .error (.nonFieldError "This seat is already taken.") := by
  have hb := (seat_lookup_iff tickets attrs.movie_session.id attrs.row
    attrs.seat).mpr hex
  simp [TicketCreateSerializer.validate, hrow.1, hrow.2, hseat.1, hseat.2, hb]

/-- When the ticket-writing loop completes, it has appended exactly one row
per request, in request order. -/
theorem createTickets_complete (order : Nat) (reqs : List TicketAttrs) :
    ∀ tickets tickets1 : List Ticket,
      createTickets order tickets reqs = (tickets1, true) →
        tickets1 = tickets ++ reqs.map (mkTicket order) := by
  induction reqs with
  | nil =>
    intro tickets tickets1 h
    simp [createTickets] at h
    simpa using h.symm
  | cons a rest ih =>
    intro tickets tickets1 h
    cases hi : insertTicket tickets (mkTicket order a) with
    | none =>
      simp only [createTickets, hi] at h
      simp at h
    | some t1 =>
      simp only [createTickets, hi] at h
      have ht1 : t1 = tickets ++ [mkTicket order a] := by
        unfold insertTicket at hi
        split at hi
        · simp at hi
        · simp at hi
          exact hi.symm
      subst ht1
      rw [ih _ _ h]
      simp

/-- A successful `OrderCreateSerializer.create` appends exactly one order pk
and the requested ticket rows, each referencing that pk. -/
theorem create_success (db : DB) (reqs : List TicketAttrs) (db1 : DB)
    (order : Nat)
    (h : OrderCreateSerializer.create db reqs = (db1, some order)) :
    order = db.orders.length + 1 ∧ db1.orders = db.orders ++ [order] ∧
      db1.tickets = db.tickets ++ reqs.map (mkTicket order) := by
  simp only [OrderCreateSerializer.create] at h
  rcases hstep : createTickets (db.orders.length + 1) db.tickets reqs
    with ⟨tickets1, ok⟩
  rw [hstep] at h
  cases ok with
  | false => simp at h
  | true =>
    have h1 := congrArg Prod.fst h
    have h2 := congrArg Prod.snd h
    simp at h1 h2
    subst h2
    subst h1
    exact ⟨rfl, rfl, createTickets_complete _ reqs db.tickets tickets1 hstep⟩

/-- A successful end-to-end order-creation request validated every ticket and
appended exactly the requested rows. -/
theorem createOrderRequest_success (db : DB) (reqs : List TicketAttrs)
    (db1 : DB) (order : Nat)
    (h : createOrderRequest db reqs = (db1, .success order)) :
    validateTickets db.tickets reqs = none ∧
      order = db.orders.length + 1 ∧ db1.orders = db.orders ++ [order] ∧
      db1.tickets = db.tickets ++ reqs.map (mkTicket order) := by
  cases hv : validateTickets db.tickets reqs with
  | some e =>
    unfold createOrderRequest at h
    rw [hv] at h
    simp at h
  | none =>
    unfold createOrderRequest at h
    rw [hv] at h
    rcases hc : OrderCreateSerializer.create db reqs with ⟨db2, res⟩
    rw [hc] at h
    cases res with
    | none => simp at h
    | some o =>
      simp at h
      obtain ⟨hdb, ho⟩ := h
      subst hdb
      subst ho
      exact ⟨rfl, create_success db reqs _ _ hc⟩

/-- C10: `TicketListSerializer.validate` and `TicketCreateSerializer.validate`
implement the same function: on every committed ticket table and every input
attributes they return the same result, success with the attributes unchanged
or the same validation error. -/
theorem ticket_validate_routines_agree (tickets : List Ticket)
    (attrs : TicketAttrs) :
    TicketListSerializer.validate tickets attrs =
      TicketCreateSerializer.validate tickets attrs := rfl

/-- C3 counterexample: with both coordinates out of range (row 0, seat 20 on
the 10 × 15 hall), the seat lies outside `[1, seats_in_row]`, yet `validate`
reports the range error keyed to `row`, not the one keyed to `seat`. -/
theorem seat_error_masked_by_row_error :
    sess1.cinema_hall.seats_in_row < 20 ∧
    TicketCreateSerializer.validate [] (req 0 20) =
      .error (.fieldError "row" "Row number out of range.") ∧
    TicketCreateSerializer.validate [] (req 0 20) ≠
      .error (.fieldError "seat" "Seat number out of range.") := by
  refine ⟨by decide, rfl, by decide⟩

/-- C3 (amended): `validate` fails with a range error exactly on out-of-range
coordinates — every out-of-range row yields `OutOfRange` keyed to `row`; an
out-of-range seat yields `OutOfRange` keyed to `seat` provided the row is in
range; and when both coordinates are in range (boundary values 1 and the
maximum included) the range check passes, leaving success or the seat-taken
error. -/
theorem validate_range_check (tickets : List Ticket) (attrs : TicketAttrs) :
    ((attrs.row < 1 ∨ attrs.movie_session.cinema_hall.rows < attrs.row) →
      TicketCreateSerializer.validate tickets attrs =
        .error (.fieldError "row" "Row number out of range.")) ∧
    (1 ≤ attrs.row → attrs.row ≤ attrs.movie_session.cinema_hall.rows →
      (attrs.seat < 1 ∨
          attrs.movie_session.cinema_hall.seats_in_row < attrs.seat) →
      TicketCreateSerializer.validate tickets attrs =
        .error (.fieldError "seat" "Seat number out of range.")) ∧
    (1 ≤ attrs.row → attrs.row ≤ attrs.movie_session.cinema_hall.rows →
      1 ≤ attrs.seat →
      attrs.seat ≤ attrs.movie_session.cinema_hall.seats_in_row →
      TicketCreateSerializer.validate tickets attrs = .ok attrs ∨
        TicketCreateSerializer.validate tickets attrs =
          .error (.nonFieldError "This seat is already taken.")) := by
  refine ⟨?_, ?_, ?_⟩
  · intro h
    have hc : ¬ (1 ≤ attrs.row ∧
        attrs.row ≤ attrs.movie_session.cinema_hall.rows) := by omega
    simp [TicketCreateSerializer.validate, hc]
  · intro h1 h2 h
    have hc : ¬ (1 ≤ attrs.seat ∧
        attrs.seat ≤ attrs.movie_session.cinema_hall.seats_in_row) := by omega
    simp [TicketCreateSerializer.validate, h1, h2, hc]
  · intro h1 h2 h3 h4
    cases hb : tickets.any (fun t =>
        t.movie_session == attrs.movie_session.id && t.row == attrs.row &&
          t.seat == attrs.seat) with
    | true =>
      right
      simp [TicketCreateSerializer.validate, h1, h2, h3, h4, hb]
    | false =>
      left
      simp [TicketCreateSerializer.validate, h1, h2, h3, h4, hb]

/-- C3 witness: on the 10 × 15 hall, row 11 yields the row error, seat 16
under row 5 yields the seat error, and the boundary request `(10, 15)` passes
the range check. -/
theorem validate_range_check_witness :
    TicketCreateSerializer.validate [] (req 11 3) =
      .error (.fieldError "row" "Row number out of range.") ∧
    TicketCreateSerializer.validate [] (req 5 16) =
      .error (.fieldError "seat" "Seat number out of range.") ∧
    (TicketCreateSerializer.validate [] (req 10 15) = .ok (req 10 15) ∨
      TicketCreateSerializer.validate [] (req 10 15) =
        .error (.nonFieldError "This seat is already taken.")) :=
  ⟨(validate_range_check [] (req 11 3)).1 (by decide),
   (validate_range_check [] (req 5 16)).2.1 (by decide) (by decide) (by decide),
   (validate_range_check [] (req 10 15)).2.2 (by decide) (by decide)
     (by decide) (by decide)⟩

/-- C4: for a session and an in-range `(row, seat)` pair, `validate` fails
with the seat-taken error when a committed ticket of that session already
carries exactly that pair, and succeeds with the attributes unchanged when no
such ticket exists. -/
theorem validate_seat_taken (tickets : List Ticket) (attrs : TicketAttrs)
    (hrow : 1 ≤ attrs.row ∧ attrs.row ≤ attrs.movie_session.cinema_hall.rows)
    (hseat : 1 ≤ attrs.seat ∧
      attrs.seat ≤ attrs.movie_session.cinema_hall.seats_in_row) :
    ((∃ t ∈ tickets, t.movie_session = attrs.movie_session.id ∧
        t.row = attrs.row ∧ t.seat = attrs.seat) →
      TicketCreateSerializer.validate tickets attrs =
        .error (.nonFieldError "This seat is already taken.")) ∧
    (¬ (∃ t ∈ tickets, t.movie_session = attrs.movie_session.id ∧
        t.row = attrs.row ∧ t.seat = attrs.seat) →
      TicketCreateSerializer.validate tickets attrs = .ok attrs) :=
  ⟨fun hex => validate_taken_of_committed tickets attrs hrow hseat hex,
   fun hfree => validate_ok_of_free tickets attrs hrow hseat hfree⟩

/-- C4 witness: with `(5, 5)` committed on `sess1`, a second request for
`(5, 5)` fails with the seat-taken error and a request for `(5, 6)`
succeeds. -/
theorem validate_seat_taken_witness :
    TicketCreateSerializer.validate [committed 5 5] (req 5 5) =
      .error (.nonFieldError "This seat is already taken.") ∧
    TicketCreateSerializer.validate [committed 5 5] (req 5 6) =
      .ok (req 5 6) :=
  ⟨(validate_seat_taken [committed 5 5] (req 5 5) (by decide) (by decide)).1
     ⟨committed 5 5, by decide, by decide, by decide, by decide⟩,
   (validate_seat_taken [committed 5 5] (req 5 6) (by decide) (by decide)).2
     (by decide)⟩

/-- C5: the range checks run before the uniqueness check — an out-of-range row
yields the row error and an out-of-range seat under an in-range row yields the
seat error, whatever the committed ticket table holds (so even when the
requested seat is already taken) — and the seat-taken error is only ever
returned for in-range coordinates. -/
theorem validate_checks_ordered (tickets : List Ticket) (attrs : TicketAttrs) :
    ((attrs.row < 1 ∨ attrs.movie_session.cinema_hall.rows < attrs.row) →
      TicketCreateSerializer.validate tickets attrs =
        .error (.fieldError "row" "Row number out of range.")) ∧
    (1 ≤ attrs.row → attrs.row ≤ attrs.movie_session.cinema_hall.rows →
      (attrs.seat < 1 ∨
          attrs.movie_session.cinema_hall.seats_in_row < attrs.seat) →
      TicketCreateSerializer.validate tickets attrs =
        .error (.fieldError "seat" "Seat number out of range.")) ∧
    (TicketCreateSerializer.validate tickets attrs =
        .error (.nonFieldError "This seat is already taken.") →
      1 ≤ attrs.row ∧ attrs.row ≤ attrs.movie_session.cinema_hall.rows ∧
        1 ≤ attrs.seat ∧
        attrs.seat ≤ attrs.movie_session.cinema_hall.seats_in_row) := by
  refine ⟨?_, ?_, ?_⟩
  · intro h
    have hc : ¬ (1 ≤ attrs.row ∧
        attrs.row ≤ attrs.movie_session.cinema_hall.rows) := by omega
    simp [TicketCreateSerializer.validate, hc]
  · intro h1 h2 h
    have hc : ¬ (1 ≤ attrs.seat ∧
        attrs.seat ≤ attrs.movie_session.cinema_hall.seats_in_row) := by omega
    simp [TicketCreateSerializer.validate, h1, h2, hc]
  · intro h
    by_cases h1 : 1 ≤ attrs.row ∧
        attrs.row ≤ attrs.movie_session.cinema_hall.rows
    · by_cases h2 : 1 ≤ attrs.seat ∧
          attrs.seat ≤ attrs.movie_session.cinema_hall.seats_in_row
      · exact ⟨h1.1, h1.2, h2.1, h2.2⟩
      · simp [TicketCreateSerializer.validate, h1.1, h1.2, h2] at h
    · simp [TicketCreateSerializer.validate, h1] at h

/-- C5 witness: with the committed table holding a ticket at `(11, 1)` of
`sess1`, the request `(11, 1)` — whose exact seat is taken — still fails with
the row range error, and the seat error fires for `(5, 16)`. -/
theorem validate_checks_ordered_witness :
    TicketCreateSerializer.validate [committed 11 1] (req 11 1) =
      .error (.fieldError "row" "Row number out of range.") ∧
    TicketCreateSerializer.validate [committed 5 16] (req 5 16) =
      .error (.fieldError "seat" "Seat number out of range.") :=
  ⟨(validate_checks_ordered [committed 11 1] (req 11 1)).1 (by decide),
   (validate_checks_ordered [committed 5 16] (req 5 16)).2.1 (by decide)
     (by decide) (by decide)⟩

/-- C6: batch validation checks each request only against committed tickets,
not against sibling requests: a batch holding the same in-range, currently
free seat twice passes per-item validation for both occurrences. -/
theorem batch_duplicates_unchecked (tickets : List Ticket) (a : TicketAttrs)
    (hrow : 1 ≤ a.row ∧ a.row ≤ a.movie_session.cinema_hall.rows)
    (hseat : 1 ≤ a.seat ∧
      a.seat ≤ a.movie_session.cinema_hall.seats_in_row)
    (hfree : ¬ (∃ t ∈ tickets, t.movie_session = a.movie_session.id ∧
      t.row = a.row ∧ t.seat = a.seat)) :
    TicketCreateSerializer.validate tickets a = .ok a ∧
      validateTickets tickets [a, a] = none := by
  have hok := validate_ok_of_free tickets a hrow hseat hfree
  exact ⟨hok, by simp [validateTickets, hok]⟩

/-- C6 witness: the batch requesting `(5, 5)` on `sess1` twice against the
empty committed table passes per-item validation for both requests. -/
theorem batch_duplicates_unchecked_witness :
    TicketCreateSerializer.validate [] (req 5 5) = .ok (req 5 5) ∧
      validateTickets [] [req 5 5, req 5 5] = none :=
  batch_duplicates_unchecked [] (req 5 5) (by decide) (by decide) (by decide)

/-- C1: refuted on the code — `OrderCreateSerializer.create` runs in no
transaction, so when the third ticket write of a three-ticket batch fails at
the storage layer (it repeats the seat of the first request, which per-item
validation does not catch), the order and the first two tickets stay
persisted: the state after the failed request differs from the state before
it. -/
theorem order_creation_not_atomic :
    createOrderRequest db0 [req 1 1, req 1 2, req 1 1] =
      ({ orders := [1], tickets := [committed 1 1, committed 1 2] },
        .writeFailure) ∧
    ({ orders := [1], tickets := [committed 1 1, committed 1 2] } : DB)
      ≠ db0 := by
  refine ⟨by decide, by decide⟩

/-- C2 counterexample: on the empty state, order creation for the empty batch
does not fail — it persists an `Order` with pk 1 owning zero tickets, and the
resulting state differs from the initial one. -/
theorem empty_batch_accepted :
    createOrderRequest db0 [] =
      ({ orders := [1], tickets := [] }, .success 1) ∧
    ({ orders := [1], tickets := [] } : DB) ≠ db0 := by
  refine ⟨by decide, by decide⟩

/-- C2 (amended): for the empty request sequence, order creation succeeds and
persists exactly one new `Order` owning zero tickets — the nested many-ticket
field accepts the empty list (framework default `allow_empty=True`) and no
`EmptyOrder` check exists in the code. -/
theorem empty_order_created_on_empty_batch (db : DB) :
    createOrderRequest db [] =
      ({ orders := db.orders ++ [db.orders.length + 1],
         tickets := db.tickets },
        .success (db.orders.length + 1)) := rfl

/-- C7: `tickets_available` equals the hall capacity minus the committed
ticket count of the session, recomputed from the state at call time, both
before and after an order creation; in particular after a successful creation
of the only k tickets of the session it equals capacity − k. -/
theorem tickets_available_derived (db : DB) (reqs : List TicketAttrs)
    (s : MovieSession) (db1 : DB) (order : Nat)
    (hrun : createOrderRequest db reqs = (db1, .success order))
    (hsess : ∀ a ∈ reqs, a.movie_session.id = s.id)
    (hnone : sessionTickets db s = []) :
    MovieSessionListSerializer.get_tickets_available db s =
      s.cinema_hall.capacity - (sessionTickets db s).length ∧
    MovieSessionListSerializer.get_tickets_available db1 s =
      s.cinema_hall.capacity - (sessionTickets db1 s).length ∧
    MovieSessionListSerializer.get_tickets_available db1 s =
      s.cinema_hall.capacity - reqs.length := by
  obtain ⟨-, -, -, ht⟩ := createOrderRequest_success db reqs db1 order hrun
  refine ⟨rfl, rfl, ?_⟩
  have hfil : sessionTickets db1 s = reqs.map (mkTicket order) := by
    unfold sessionTickets at hnone ⊢
    rw [ht, List.filter_append, hnone, List.nil_append]
    apply List.filter_eq_self.mpr
    intro t htmem
    obtain ⟨a, ha, rfl⟩ := List.mem_map.mp htmem
    simp [mkTicket, hsess a ha]
  simp only [MovieSessionListSerializer.get_tickets_available]
  rw [hfil, List.length_map]

/-- C7 witness: creating the single ticket `(5, 5)` on the empty 10 × 15
session leaves 150 − 1 = 149 available tickets. -/
theorem tickets_available_derived_witness :
    MovieSessionListSerializer.get_tickets_available dbOne sess1 = 149 := by
  have h := (tickets_available_derived db0 [req 5 5] sess1 dbOne 1 (by decide)
    (by decide) rfl).2.2
  simpa [sess1, hall10, CinemaHall.capacity] using h

/-- C8: `taken_places` exposes exactly the `(row, seat)` pairs of the
committed tickets of the session: a pair appears iff some committed ticket
referencing the session carries it. -/
theorem taken_places_exact (db : DB) (s : MovieSession) (p : Int × Int) :
    p ∈ MovieSessionDetailSerializer.get_taken_places db s ↔
      ∃ t ∈ db.tickets, t.movie_session = s.id ∧ p = (t.row, t.seat) := by
  constructor
  · intro hp
    obtain ⟨t, htmem, rfl⟩ := List.mem_map.mp hp
    obtain ⟨hmem, hq⟩ := List.mem_filter.mp htmem
    exact ⟨t, hmem, by simpa using hq, rfl⟩
  · rintro ⟨t, hmem, hsid, rfl⟩
    exact List.mem_map.mpr
      ⟨t, List.mem_filter.mpr ⟨hmem, by simpa using hsid⟩, rfl⟩

/-- C9: refuted on the failure clause — a failed request can persist rows.
Here a two-ticket batch repeating one seat passes validation, the order and
the first ticket are written, the second write fails, and with no transaction
the one order and one ticket remain persisted. -/
theorem failed_create_persists_partial_rows :
    createOrderRequest db0 [req 2 3, req 2 3] =
      ({ orders := [1], tickets := [committed 2 3] }, .writeFailure) ∧
    ({ orders := [1], tickets := [committed 2 3] } : DB) ≠ db0 := by
  refine ⟨by decide, by decide⟩
